import Mathlib

/-!
# VideoClientAPI-python: the pybind11 plugin layer (`src/plugins.cpp`)

A shallow embedding of the callback trampolines, the handle bindings, the record copy
routines and the property setters of `plugins.cpp`, followed by the properties proved of them.

Conventions of the embedding.

* A `video_client` is the opaque native pointer; it is embedded as a natural number and
  `0` is `nullptr`.
* A `py::function` is embedded as the identity (a number) of the Python callable; what the
  callable does when called is supplied by a `PyRuntime`.
* A fixed-size C array `T a[n]` is a list of exactly `n` elements (`CArray T n`).
  A `double` is carried as its 64-bit pattern, which is all that `memcpy` and assignment
  observe.
* C++ code that can throw returns the exception it leaves with next to the state it leaves
  behind, because a throw does not undo writes that came before it.
-/

namespace VideoClientAPI

/-! ## Fixed-size arrays and the C library routines used on them -/

/-- A C array of exactly `n` elements. -/
abbrev CArray (α : Type) (n : Nat) := { l : List α // l.length = n }

namespace CArray

/-- The value `a[i] = v` leaves in `a`; a write outside the array is not modelled and
leaves the array as it is. -/
def set {α : Type} {n : Nat} (a : CArray α n) (i : Nat) (v : α) : CArray α n :=
  ⟨a.val.set i v, by rw [List.length_set]; exact a.property⟩

/-- An array holding `v` in every element. -/
def fill {α : Type} (n : Nat) (v : α) : CArray α n :=
  ⟨List.replicate n v, List.length_replicate n v⟩

end CArray

/-- The call `std::memcpy(dst, src, count * sizeof(T))` on two arrays of `n` elements:
the first `count` elements of `dst` are overwritten by those of `src`. -/
def memcpy {α : Type} {n : Nat} (dst src : CArray α n) (count : Nat) : CArray α n :=
  ⟨(src.val.take count ++ dst.val.drop count).take n, by
    have hs := src.property
    have hd := dst.property
    simp only [List.length_take, List.length_append, List.length_drop, hs, hd]
    omega⟩

/-- The characters of a C string: the bytes before its first NUL. -/
def c_chars (s : List Nat) : List Nat := s.takeWhile (fun c => c != 0)

/-- The call `std::strncpy(dst, src, count)`: the characters of `src` are copied, at most
`count` of them, and when `src` is shorter than `count` the rest of the `count` bytes is
filled with NUL. Bytes of `dst` from `count` on are kept. -/
def strncpy {n : Nat} (dst : CArray Nat n) (src : List Nat) (count : Nat) : CArray Nat n :=
  ⟨(((c_chars src).take count ++ List.replicate (count - (c_chars src).length) 0)
      ++ dst.val.drop count).take n, by
    have hd := dst.property
    simp only [List.length_take, List.length_append, List.length_drop, List.length_replicate, hd]
    omega⟩

/-- The loop `for (i = 0; i < n; ++i) field[i] = r(i);` of the array setters. -/
def assign_elements {n : Nat} (field : CArray Nat n) (r : List Nat) (count : Nat) : CArray Nat n :=
  (List.range count).foldl (fun a i => a.set i (r.getD i 0)) field

/-! ## The native records (`MvFrameHeader.h`) -/

/-- The enumeration bound as `PxMvCameraModel` (plugins.cpp lines 168-171). -/
inductive PxMvCameraModel
  | PXMV_CAMERA_MODEL_NONE
  | PXMV_CAMERA_MODEL_OPENCV
  | PXMV_CAMERA_MODEL_OPENCV_FISHEYE
  deriving DecidableEq, Repr

/-- Modelled from the spec: the layout of `PxMvCameraIntrinsicUnion` is declared in
`MvFrameHeader.h`, which is not among the sources. The union is its storage, the 16-word raw
view `_max_size`; the `cv` and `fisheye` members are readings of the same words. -/
structure PxMvCameraIntrinsicUnion where
  _max_size : CArray Nat 16
  deriving DecidableEq

/-- Modelled from the spec: the layout of `PxMvCameraExtrinsic` is declared in
`MvFrameHeader.h`, which is not among the sources. The fields are the ones bound in
plugins.cpp lines 328-357. -/
structure PxMvCameraExtrinsic where
  rvec : CArray Nat 3
  tvec : CArray Nat 3
  _reserved : CArray Nat 4
  deriving DecidableEq

/-- Modelled from the spec: the layout of `PxMvCameraParameter` is declared in
`MvFrameHeader.h`, which is not among the sources. The fields are the ones bound in
plugins.cpp lines 229-252. -/
structure PxMvCameraParameter where
  camera_model : PxMvCameraModel
  _reserved0 : Nat
  intrinsic_id : Nat
  extrinsic_id : Nat
  _reserved1 : CArray Nat 3
  intrinsic : PxMvCameraIntrinsicUnion
  extrinsic : PxMvCameraExtrinsic
  deriving DecidableEq

/-- Modelled from the spec: the layout of `PxMvDeviceInfo` is declared in `MvFrameHeader.h`,
which is not among the sources. The fields are the ones bound in plugins.cpp lines 197-227;
the capacities of the two text fields, `sizeof(channelName)` and `sizeof(vendor)`, are the
parameters `CN` and `VN`. -/
structure PxMvDeviceInfo (CN VN : Nat) where
  nWidth : Nat
  nHeight : Nat
  name_hash : Nat
  enPixelType : Nat
  fps : Nat
  channelName : CArray Nat CN
  vendor : CArray Nat VN
  camera_parameter : PxMvCameraParameter
  deriving DecidableEq

/-- Modelled from the spec: the layout of `MV_FRAME_INFO` is declared in `MvFrameHeader.h`,
which is not among the sources. The fields are the ones bound in plugins.cpp lines 254-282. -/
structure MV_FRAME_INFO (CN VN : Nat) where
  start_code : CArray Nat 4
  header_size : Nat
  version : Nat
  nFrameNum : Nat
  nHWFrameNum : Nat
  utc_timestamp_us : Nat
  hw_timestamp_us : Nat
  nOffsetX : Nat
  nOffsetY : Nat
  nLostPacket : Nat
  nFrameLen : Nat
  deviceInfo : PxMvDeviceInfo CN VN
  deriving DecidableEq

/-! ## The copy routines (plugins.cpp lines 56-109)

Each routine declares a local record without initialising it and then writes its fields.
The indeterminate content of that local is the first argument of the embedded routine. -/

/-- The routine `copy_PxMvCameraParameter` (lines 56-71); `cameraParam` is the content the
local has before the assignments. -/
def copy_PxMvCameraParameter (cameraParam self : PxMvCameraParameter) : PxMvCameraParameter :=
  let cameraParam := { cameraParam with camera_model := self.camera_model }
  let cameraParam := { cameraParam with _reserved0 := self._reserved0 }
  let cameraParam := { cameraParam with intrinsic_id := self.intrinsic_id }
  let cameraParam := { cameraParam with extrinsic_id := self.extrinsic_id }
  let cameraParam := { cameraParam with
    intrinsic := { _max_size := memcpy cameraParam.intrinsic._max_size self.intrinsic._max_size 16 } }
  let cameraParam := { cameraParam with
    extrinsic :=
      { rvec := memcpy cameraParam.extrinsic.rvec self.extrinsic.rvec 3
        tvec := memcpy cameraParam.extrinsic.tvec self.extrinsic.tvec 3
        _reserved := memcpy cameraParam.extrinsic._reserved self.extrinsic._reserved 4 } }
  { cameraParam with _reserved1 := memcpy cameraParam._reserved1 self._reserved1 3 }

/-- The routine `copy_PxMvDeviceInfo` (lines 73-87); `deviceInfo` is the content its local
has before the assignments and `cameraParam` that of the local of the nested call. -/
def copy_PxMvDeviceInfo {CN VN : Nat} (deviceInfo : PxMvDeviceInfo CN VN)
    (cameraParam : PxMvCameraParameter) (self : PxMvDeviceInfo CN VN) : PxMvDeviceInfo CN VN :=
  let deviceInfo := { deviceInfo with nWidth := self.nWidth }
  let deviceInfo := { deviceInfo with nHeight := self.nHeight }
  let deviceInfo := { deviceInfo with name_hash := self.name_hash }
  let deviceInfo := { deviceInfo with enPixelType := self.enPixelType }
  let deviceInfo := { deviceInfo with fps := self.fps }
  let deviceInfo := { deviceInfo with channelName := memcpy deviceInfo.channelName self.channelName CN }
  let deviceInfo := { deviceInfo with vendor := memcpy deviceInfo.vendor self.vendor VN }
  { deviceInfo with camera_parameter := copy_PxMvCameraParameter cameraParam self.camera_parameter }

/-- The routine `copy_MV_FRAME_INFO` (lines 89-109); `frameInfo` is the content its local has
before the assignments, `deviceInfo` and `cameraParam` those of the locals of the nested
calls. -/
def copy_MV_FRAME_INFO {CN VN : Nat} (frameInfo : MV_FRAME_INFO CN VN)
    (deviceInfo : PxMvDeviceInfo CN VN) (cameraParam : PxMvCameraParameter)
    (self : MV_FRAME_INFO CN VN) : MV_FRAME_INFO CN VN :=
  let frameInfo := { frameInfo with start_code := memcpy frameInfo.start_code self.start_code 4 }
  let frameInfo := { frameInfo with header_size := self.header_size }
  let frameInfo := { frameInfo with version := self.version }
  let frameInfo := { frameInfo with nFrameNum := self.nFrameNum }
  let frameInfo := { frameInfo with nHWFrameNum := self.nHWFrameNum }
  let frameInfo := { frameInfo with utc_timestamp_us := self.utc_timestamp_us }
  let frameInfo := { frameInfo with hw_timestamp_us := self.hw_timestamp_us }
  let frameInfo := { frameInfo with nOffsetX := self.nOffsetX }
  let frameInfo := { frameInfo with nOffsetY := self.nOffsetY }
  let frameInfo := { frameInfo with nLostPacket := self.nLostPacket }
  let frameInfo := { frameInfo with nFrameLen := self.nFrameLen }
  { frameInfo with deviceInfo := copy_PxMvDeviceInfo deviceInfo cameraParam self.deviceInfo }

/-! ## Property setters and getters of the records (plugins.cpp lines 209-356)

A setter that validates its argument can leave with an exception; it returns the record as
the call leaves it together with the exception, if any. The argument of an array setter is
a one-dimensional array of the field's element type, given by its elements; `r.shape(0)` is
its length. -/

/-- A Python exception in flight: what `py::error_already_set` carries. -/
structure PyErr where
  what : String
  deriving DecidableEq, Repr

/-- The C++ exceptions that occur in plugins.cpp and in the pybind11 calls it makes. -/
inductive CppException
  | error_already_set (e : PyErr)
  | runtime_error (what : String)
  | cast_error (what : String)
  | bad_alloc
  deriving DecidableEq, Repr

/-- The setter of `PxMvCameraParameter._reserved1` (lines 245-251). -/
def PxMvCameraParameter.set_reserved1 (self : PxMvCameraParameter) (arr : List Nat) :
    PxMvCameraParameter × Option CppException :=
  if arr.length ≠ 3 then
    (self, some (.runtime_error "Input array must have 3 elements"))
  else
    ({ self with _reserved1 := assign_elements self._reserved1 arr 3 }, none)

/-- The setter of `MV_FRAME_INFO.start_code` (lines 271-277). -/
def MV_FRAME_INFO.set_start_code {CN VN : Nat} (self : MV_FRAME_INFO CN VN) (arr : List Nat) :
    MV_FRAME_INFO CN VN × Option CppException :=
  if arr.length ≠ 4 then
    (self, some (.runtime_error "Input array must have 3 elements"))
  else
    ({ self with start_code := assign_elements self.start_code arr 4 }, none)

/-- The setter of `PxMvCameraIntrinsicUnion._max_size` (lines 288-294). -/
def PxMvCameraIntrinsicUnion.set_max_size (self : PxMvCameraIntrinsicUnion) (arr : List Nat) :
    PxMvCameraIntrinsicUnion × Option CppException :=
  if arr.length ≠ 16 then
    (self, some (.runtime_error "Input array must have 16 elements"))
  else
    ({ self with _max_size := assign_elements self._max_size arr 16 }, none)

/-- The setter of `PxMvCameraExtrinsic.rvec` (lines 332-338). -/
def PxMvCameraExtrinsic.set_rvec (self : PxMvCameraExtrinsic) (arr : List Nat) :
    PxMvCameraExtrinsic × Option CppException :=
  if arr.length ≠ 3 then
    (self, some (.runtime_error "Input array must have 3 elements"))
  else
    ({ self with rvec := assign_elements self.rvec arr 3 }, none)

/-- The setter of `PxMvCameraExtrinsic.tvec` (lines 341-347). -/
def PxMvCameraExtrinsic.set_tvec (self : PxMvCameraExtrinsic) (arr : List Nat) :
    PxMvCameraExtrinsic × Option CppException :=
  if arr.length ≠ 3 then
    (self, some (.runtime_error "Input array must have 3 elements"))
  else
    ({ self with tvec := assign_elements self.tvec arr 3 }, none)

/-- The setter of `PxMvCameraExtrinsic._reserved` (lines 350-356). -/
def PxMvCameraExtrinsic.set_reserved (self : PxMvCameraExtrinsic) (arr : List Nat) :
    PxMvCameraExtrinsic × Option CppException :=
  if arr.length ≠ 4 then
    (self, some (.runtime_error "Input array must have 3 elements"))
  else
    ({ self with _reserved := assign_elements self._reserved arr 4 }, none)

/-- The getter of `PxMvDeviceInfo.channelName` (lines 210-212): `std::string(self.channelName)`,
the bytes of the field before its first NUL. -/
def PxMvDeviceInfo.get_channelName {CN VN : Nat} (self : PxMvDeviceInfo CN VN) : List Nat :=
  c_chars self.channelName.val

/-- The setter of `PxMvDeviceInfo.channelName` (lines 213-216); `value` is the content of the
`std::string`, and `value.c_str()` is that content followed by a NUL. -/
def PxMvDeviceInfo.set_channelName {CN VN : Nat} (self : PxMvDeviceInfo CN VN) (value : List Nat) :
    PxMvDeviceInfo CN VN :=
  let self := { self with channelName := strncpy self.channelName (value ++ [0]) (CN - 1) }
  { self with channelName := self.channelName.set (CN - 1) 0 }

/-- The getter of `PxMvDeviceInfo.vendor` (lines 219-221). -/
def PxMvDeviceInfo.get_vendor {CN VN : Nat} (self : PxMvDeviceInfo CN VN) : List Nat :=
  c_chars self.vendor.val

/-- The setter of `PxMvDeviceInfo.vendor` (lines 222-225). -/
def PxMvDeviceInfo.set_vendor {CN VN : Nat} (self : PxMvDeviceInfo CN VN) (value : List Nat) :
    PxMvDeviceInfo CN VN :=
  let self := { self with vendor := strncpy self.vendor (value ++ [0]) (VN - 1) }
  { self with vendor := self.vendor.set (VN - 1) 0 }

/-! ## Handles, the callback stores and the native client -/

/-- The opaque native pointer `video_client`; `0` is `nullptr`. -/
abbrev video_client := Nat

/-- A `py::function`, given by the identity of the Python callable it refers to. -/
abbrev PyFunction := Nat

/-- The wrapper `VideoClientHandle` (lines 10-13). -/
structure VideoClientHandle where
  ptr : video_client
  deriving DecidableEq, Repr

/-- A `std::unordered_map<video_client, py::function>`: entries with pairwise distinct keys. -/
structure unordered_map where
  entries : List (video_client × PyFunction)
  nodup : (entries.map Prod.fst).Nodup
  deriving DecidableEq

namespace unordered_map

/-- The map without entries. -/
def empty : unordered_map := ⟨[], List.nodup_nil⟩

/-- The lookup `m.find(k)`: the mapped callable, or `none` for `m.end()`. -/
def find (m : unordered_map) (k : video_client) : Option PyFunction :=
  (m.entries.find? (fun e => e.1 == k)).map Prod.snd

/-- The statement `m[k] = v`: the entry of key `k` is created or overwritten. -/
def assign (m : unordered_map) (k : video_client) (v : PyFunction) : unordered_map :=
  ⟨(k, v) :: m.entries.filter (fun e => e.1 != k), by
    rw [List.map_cons, List.nodup_cons]
    refine ⟨?_, ?_⟩
    · intro h
      rcases List.mem_map.1 h with ⟨e, he, hk⟩
      have := (List.mem_filter.1 he).2
      simp [hk] at this
    · exact (m.nodup.sublist ((List.filter_sublist _).map _))⟩

/-- The number of entries stored under key `k`. -/
def count (m : unordered_map) (k : video_client) : Nat :=
  (m.entries.map Prod.fst).count k

end unordered_map

/-- The status enumeration `api_err_t` (lines 152-160). -/
inductive api_err_t
  | SUCCESS
  | INVALID_CLIENT_CONTEXT
  | INVALID_URL
  | CONNECT_TIMEOUT
  | CALLBACK_NOT_SET
  | INVALID_GPU_INDEX
  | INIT_VIDEO_PROCESSOR_FAILED
  | INIT_VIDEO_DECODER_FAILED
  deriving DecidableEq, Repr

/-- The configuration record `videoproc_context` (lines 189-195); its values are passed
through unread. -/
structure videoproc_context where
  gpu_index : Nat
  target_format : Nat
  target_fps : Nat
  deriving DecidableEq, Repr

/-- A call this layer makes into the native client (`video_client_api.h`), with the
arguments it passes. The callback argument of connect and start is always the trampoline of
this file and is not recorded; `timeout_sec` is the bit pattern of the `float`. -/
inductive NativeCall
  | release_video_client (c : video_client)
  | connect_video_client (c : video_client) (url : String) (timeout_sec : Nat)
  | disconnect_video_client (c : video_client)
  | stop_video_client (c : video_client)
  | start_video_client (c : video_client) (vp_ctx : videoproc_context)
  | set_max_queue_size (c : video_client) (size : Nat)
  deriving DecidableEq, Repr

/-- The native client is external: the status it answers a call with is given. -/
abbrev NativeClient := NativeCall → api_err_t


/-- A call of one of the bound functions that take a handle, with its other arguments. -/
inductive Op
  | release
  | connect (url : String) (timeout_sec : Nat) (callback : PyFunction)
  | disconnect
  | stop
  | start (vp_ctx : videoproc_context) (callback : PyFunction)
  | set_max_queue_size (size : Nat)
  deriving DecidableEq, Repr

/-- The arguments a trampoline hands to a Python callable. -/
inductive PyArgs (CN VN : Nat)
  | data (handle : VideoClientHandle) (py_data : List Nat) (size : Nat)
      (py_frame_info : MV_FRAME_INFO CN VN)
  | disconnect (handle : VideoClientHandle) (code : Int) (msg : String)
  deriving DecidableEq

/-- One invocation of a Python callable. -/
structure PyCall (CN VN : Nat) where
  callee : PyFunction
  args : PyArgs CN VN
  deriving DecidableEq

/-- What an invocation of a Python callable does, as far as this module is concerned. The
callable is handed a handle and may hold others, so while it runs it can call the bound
functions: `bound_calls` lists those calls in order, each with the identity of the handle it
is made on. `thrown` is the exception the call expression leaves with, `none` when the
callable returns; a Python error raised by the callable arrives as
`py::error_already_set`. -/
structure PyOutcome where
  bound_calls : List (video_client × Op)
  thrown : Option CppException

/-- The Python side is external. `array_t size` and `request size` give the exception that
the construction of the array (line 25) and its `request()` (line 26) leave with, `none`
when they succeed; `call` gives what an invocation does. pybind11 reports a Python error by
throwing `py::error_already_set`; other C++ exceptions, `std::bad_alloc` for one, are not
excluded. -/
structure PyRuntime (CN VN : Nat) where
  array_t : Nat → Option CppException
  request : Nat → Option CppException
  call : PyFunction → PyArgs CN VN → PyOutcome

/-- A line written to `std::cout` or `std::cerr`. -/
inductive LogLine
  | no_callback (ctx : video_client)
  | data_callback_error (what : String)
  | disconnect_callback_error (what : String)
  deriving DecidableEq, Repr

/-- The state of the module: the two global callback stores (lines 16-17) and what the
module has done so far, namely the calls made into the native client, the invocations of
Python callables and the lines logged, each in order. -/
structure ModuleState (CN VN : Nat) where
  g_py_data_callbacks : unordered_map
  g_py_disconnect_callbacks : unordered_map
  native_calls : List NativeCall
  py_calls : List (PyCall CN VN)
  log : List LogLine
  deriving DecidableEq

/-- The module as loaded: empty stores, nothing done. -/
def ModuleState.init (CN VN : Nat) : ModuleState CN VN :=
  ⟨unordered_map.empty, unordered_map.empty, [], [], []⟩

/-! ## The bound functions (plugins.cpp lines 117-146, 181-186)

A bound function takes the handle by reference; the ones that write it return the handle as
they leave it. -/

/-- The binding `release_video_client` (lines 121-126). -/
def release_video_client {CN VN : Nat} (handle : VideoClientHandle) (s : ModuleState CN VN) :
    VideoClientHandle × ModuleState CN VN :=
  if handle.ptr ≠ 0 then
    let s := { s with native_calls := s.native_calls ++ [NativeCall.release_video_client handle.ptr] }
    ({ handle with ptr := 0 }, s)
  else
    (handle, s)

/-- The method `VideoClient.__del__` (lines 181-186). -/
def VideoClient.__del__ {CN VN : Nat} (self : VideoClientHandle) (s : ModuleState CN VN) :
    VideoClientHandle × ModuleState CN VN :=
  if self.ptr ≠ 0 then
    let s := { s with native_calls := s.native_calls ++ [NativeCall.release_video_client self.ptr] }
    ({ self with ptr := 0 }, s)
  else
    (self, s)

/-- The binding `connect_video_client` (lines 127-130). -/
def connect_video_client {CN VN : Nat} (native : NativeClient) (handle : VideoClientHandle)
    (url : String) (timeout_sec : Nat) (callback : PyFunction) (s : ModuleState CN VN) :
    api_err_t × ModuleState CN VN :=
  let s := { s with g_py_disconnect_callbacks := s.g_py_disconnect_callbacks.assign handle.ptr callback }
  let call := NativeCall.connect_video_client handle.ptr url timeout_sec
  (native call, { s with native_calls := s.native_calls ++ [call] })

/-- The binding `disconnect_video_client` (lines 131-133). -/
def disconnect_video_client {CN VN : Nat} (native : NativeClient) (handle : VideoClientHandle)
    (s : ModuleState CN VN) : api_err_t × ModuleState CN VN :=
  let call := NativeCall.disconnect_video_client handle.ptr
  (native call, { s with native_calls := s.native_calls ++ [call] })

/-- The binding `stop_video_client` (lines 134-136, bound again at 141-143). -/
def stop_video_client {CN VN : Nat} (native : NativeClient) (handle : VideoClientHandle)
    (s : ModuleState CN VN) : api_err_t × ModuleState CN VN :=
  let call := NativeCall.stop_video_client handle.ptr
  (native call, { s with native_calls := s.native_calls ++ [call] })

/-- The binding `start_video_client` (lines 137-140). -/
def start_video_client {CN VN : Nat} (native : NativeClient) (handle : VideoClientHandle)
    (vp_ctx : videoproc_context) (callback : PyFunction) (s : ModuleState CN VN) :
    api_err_t × ModuleState CN VN :=
  let s := { s with g_py_data_callbacks := s.g_py_data_callbacks.assign handle.ptr callback }
  let call := NativeCall.start_video_client handle.ptr vp_ctx
  (native call, { s with native_calls := s.native_calls ++ [call] })

/-- The binding `set_max_queue_size` (lines 144-146). -/
def set_max_queue_size {CN VN : Nat} (native : NativeClient) (handle : VideoClientHandle)
    (size : Nat) (s : ModuleState CN VN) : api_err_t × ModuleState CN VN :=
  let call := NativeCall.set_max_queue_size handle.ptr size
  (native call, { s with native_calls := s.native_calls ++ [call] })

/-- The effect of one bound call on the handle it is given and on the module. -/
def Op.apply {CN VN : Nat} (native : NativeClient) (op : Op)
    (w : VideoClientHandle × ModuleState CN VN) : VideoClientHandle × ModuleState CN VN :=
  match op with
  | .release => release_video_client w.1 w.2
  | .connect url timeout_sec callback => (w.1, (connect_video_client native w.1 url timeout_sec callback w.2).2)
  | .disconnect => (w.1, (disconnect_video_client native w.1 w.2).2)
  | .stop => (w.1, (stop_video_client native w.1 w.2).2)
  | .start vp_ctx callback => (w.1, (start_video_client native w.1 vp_ctx callback w.2).2)
  | .set_max_queue_size size => (w.1, (VideoClientAPI.set_max_queue_size native w.1 size w.2).2)

/-- A sequence of bound calls on one handle, first call first. -/
def Op.run {CN VN : Nat} (native : NativeClient) (ops : List Op)
    (w : VideoClientHandle × ModuleState CN VN) : VideoClientHandle × ModuleState CN VN :=
  ops.foldl (fun w op => op.apply native w) w

/-- The bound calls a callable makes while it runs, applied in order; each is made on a
handle of the identity given with it. -/
def run_bound_calls {CN VN : Nat} (native : NativeClient) (calls : List (video_client × Op))
    (s : ModuleState CN VN) : ModuleState CN VN :=
  calls.foldl (fun t c => (c.2.apply native (⟨c.1⟩, t)).2) s

/-! ## The trampolines (plugins.cpp lines 20-54)

A trampoline returns the state it leaves and the exception that leaves it, `none` when it
returns to its caller. `native` is the native client that the bound calls of the callable
reach. -/

/-- Whether the exception is a `py::error_already_set`, the type the handlers name. -/
def CppException.is_error_already_set : CppException → Bool
  | .error_already_set _ => true
  | _ => false

/-- The handler `catch (py::error_already_set &e)`: that exception is logged with `line` and
the block is left normally; any other exception keeps propagating. -/
def catch_error_already_set {CN VN : Nat} (line : String → LogLine)
    (body : ModuleState CN VN × Option CppException) : ModuleState CN VN × Option CppException :=
  match body with
  | (s, some (.error_already_set e)) => ({ s with log := s.log ++ [line e.what] }, none)
  | r => r

/-- The trampoline `cpp_data_callback` (lines 20-39). `data` is the native buffer; a buffer
shorter than `size` makes the `memcpy` read out of bounds and is outside the embedding. -/
def cpp_data_callback {CN VN : Nat} (native : NativeClient) (rt : PyRuntime CN VN)
    (ctx : video_client) (data : List Nat) (size : Nat) (frame_info : MV_FRAME_INFO CN VN)
    (s : ModuleState CN VN) : ModuleState CN VN × Option CppException :=
  match s.g_py_data_callbacks.find ctx with
  | some callback =>
    catch_error_already_set LogLine.data_callback_error <|
      match rt.array_t size with
      | some e => (s, some e)
      | none =>
        match rt.request size with
        | some e => (s, some e)
        | none =>
          let py_data := data.take size
          let args := PyArgs.data ⟨ctx⟩ py_data size frame_info
          let s := { s with py_calls := s.py_calls ++ [⟨callback, args⟩] }
          (run_bound_calls native (rt.call callback args).bound_calls s,
            (rt.call callback args).thrown)
  | none => ({ s with log := s.log ++ [LogLine.no_callback ctx] }, none)

/-- The trampoline `cpp_disconnect_callback` (lines 42-54). -/
def cpp_disconnect_callback {CN VN : Nat} (native : NativeClient) (rt : PyRuntime CN VN)
    (ctx : video_client) (code : Int) (msg : String) (s : ModuleState CN VN) :
    ModuleState CN VN × Option CppException :=
  match s.g_py_disconnect_callbacks.find ctx with
  | some callback =>
    catch_error_already_set LogLine.disconnect_callback_error <|
      let args := PyArgs.disconnect ⟨ctx⟩ code msg
      let s := { s with py_calls := s.py_calls ++ [⟨callback, args⟩] }
      (run_bound_calls native (rt.call callback args).bound_calls s,
        (rt.call callback args).thrown)
  | none => ({ s with log := s.log ++ [LogLine.no_callback ctx] }, none)

/-! ## Sample values -/

/-- A camera parameter record with every byte zero. -/
def sample_camera_parameter : PxMvCameraParameter :=
  { camera_model := PxMvCameraModel.PXMV_CAMERA_MODEL_NONE
    _reserved0 := 0
    intrinsic_id := 0
    extrinsic_id := 0
    _reserved1 := CArray.fill 3 0
    intrinsic := { _max_size := CArray.fill 16 0 }
    extrinsic := { rvec := CArray.fill 3 0, tvec := CArray.fill 3 0, _reserved := CArray.fill 4 0 } }

/-- A device info record of a 640x480 stream with text fields of capacity 8, all NUL. -/
def sample_device_info : PxMvDeviceInfo 8 8 :=
  { nWidth := 640
    nHeight := 480
    name_hash := 0
    enPixelType := 0
    fps := 30
    channelName := CArray.fill 8 0
    vendor := CArray.fill 8 0
    camera_parameter := sample_camera_parameter }

/-- A frame metadata record announcing a payload of `nFrameLen` bytes. -/
def sample_frame_info (nFrameLen : Nat) : MV_FRAME_INFO 8 8 :=
  { start_code := CArray.fill 4 0
    header_size := 0
    version := 1
    nFrameNum := 0
    nHWFrameNum := 0
    utc_timestamp_us := 0
    hw_timestamp_us := 0
    nOffsetX := 0
    nOffsetY := 0
    nLostPacket := 0
    nFrameLen := nFrameLen
    deviceInfo := sample_device_info }

/-- A native client that answers every call with `SUCCESS`. -/
def obliging_native : NativeClient := fun _ => api_err_t.SUCCESS

/-- A Python side on which every operation succeeds and every callable returns. -/
def quiet_runtime {CN VN : Nat} : PyRuntime CN VN :=
  { array_t := fun _ => none, request := fun _ => none, call := fun _ _ => ⟨[], none⟩ }

/-- A Python side that cannot allocate arrays: the construction raises `MemoryError`. -/
def exhausted_runtime {CN VN : Nat} : PyRuntime CN VN :=
  { array_t := fun _ => some (CppException.error_already_set ⟨"MemoryError"⟩)
    request := fun _ => none
    call := fun _ _ => ⟨[], none⟩ }

/-- The module after `start_video_client` has registered callable 9 for handle 5. -/
def sample_started : ModuleState 8 8 :=
  (start_video_client obliging_native ⟨5⟩ ⟨0, 0, 0⟩ 9 (ModuleState.init 8 8)).2

/-- Copying a whole array with `memcpy` yields the source array. -/
theorem memcpy_full {α : Type} {n : Nat} (dst src : CArray α n) : memcpy dst src n = src := by
  apply Subtype.ext
  have hs := src.property
  have hd := dst.property
  simp only [memcpy]
  rw [List.take_of_length_le (le_of_eq hs), List.drop_of_length_le (le_of_eq hd),
    List.append_nil, List.take_of_length_le (le_of_eq hs)]

/-- The copy of a camera parameter record equals the record. -/
theorem copy_PxMvCameraParameter_eq (junk self : PxMvCameraParameter) :
    copy_PxMvCameraParameter junk self = self := by
  simp only [copy_PxMvCameraParameter, memcpy_full]

/-- The copy of a device info record equals the record. -/
theorem copy_PxMvDeviceInfo_eq {CN VN : Nat} (junk : PxMvDeviceInfo CN VN)
    (junkCP : PxMvCameraParameter) (self : PxMvDeviceInfo CN VN) :
    copy_PxMvDeviceInfo junk junkCP self = self := by
  simp only [copy_PxMvDeviceInfo, memcpy_full, copy_PxMvCameraParameter_eq]

/-- C1. Each copy routine returns a record equal to its argument, whatever the local it
fills held before: `copy_MV_FRAME_INFO`, `copy_PxMvDeviceInfo` and `copy_PxMvCameraParameter`
reproduce every field, the nested records, both text fields in full and the reserved data
(`_reserved0`, `_reserved1`, the extrinsic `_reserved`, the 16 raw words of the union). -/
theorem copy_preserves_every_field {CN VN : Nat}
    (frameInfo : MV_FRAME_INFO CN VN) (deviceInfo : PxMvDeviceInfo CN VN)
    (cameraParam : PxMvCameraParameter) :
    (∀ r : MV_FRAME_INFO CN VN, copy_MV_FRAME_INFO frameInfo deviceInfo cameraParam r = r) ∧
    (∀ d : PxMvDeviceInfo CN VN, copy_PxMvDeviceInfo deviceInfo cameraParam d = d) ∧
    (∀ p : PxMvCameraParameter, copy_PxMvCameraParameter cameraParam p = p) := by
  refine ⟨fun r => ?_, fun d => copy_PxMvDeviceInfo_eq _ _ d, fun p => copy_PxMvCameraParameter_eq _ p⟩
  simp only [copy_MV_FRAME_INFO, memcpy_full, copy_PxMvDeviceInfo_eq]

/-! ### The array and text setters -/

/-- After `k` rounds of the assignment loop the elements below `k` are those of `r`, the
others those of the field. -/
theorem assign_elements_getElem? {n : Nat} (r : List Nat) (k : Nat) (field : CArray Nat n) (j : Nat) :
    (assign_elements field r k).val[j]? =
      if j < k ∧ j < n then some (r.getD j 0) else field.val[j]? := by
  induction k with
  | zero => simp [assign_elements]
  | succ k ih =>
    have hlen : (assign_elements field r k).val.length = n := (assign_elements field r k).property
    have hstep : assign_elements field r (k + 1) =
        (assign_elements field r k).set k (r.getD k 0) := by
      simp [assign_elements, List.range_succ, List.foldl_append]
    rw [hstep]
    simp only [CArray.set]
    rw [List.getElem?_set]
    by_cases hjk : k = j
    · subst hjk
      by_cases hkn : k < n
      · simp [hlen, hkn]
      · have : n ≤ k := Nat.le_of_not_lt hkn
        simp [hlen, hkn, ih, this]
    · rw [if_neg hjk, ih]
      by_cases h1 : j < k
      · have : j < k + 1 := by omega
        simp [h1, this]
      · have : ¬ j < k + 1 := by omega
        simp [h1, this]

/-- The assignment loop over the whole field leaves the elements of `r`. -/
theorem assign_elements_full {n : Nat} (field : CArray Nat n) (r : List Nat) (h : r.length = n) :
    (assign_elements field r n).val = r := by
  apply List.ext_getElem?
  intro j
  rw [assign_elements_getElem?]
  by_cases hj : j < n
  · have hj' : j < r.length := by omega
    simp [hj, List.getD, List.getElem?_eq_getElem hj']
  · have h1 : r.length ≤ j := by omega
    have h2 : field.val.length ≤ j := by have := field.property; omega
    simp [hj, List.getElem?_eq_none h1, List.getElem?_eq_none h2]

/-- The characters of a NUL-free string followed by a NUL are the string. -/
theorem c_chars_append_nul (s rest : List Nat) (h : ∀ c ∈ s, c ≠ 0) :
    c_chars (s ++ 0 :: rest) = s := by
  unfold c_chars
  rw [List.takeWhile_append_of_pos (fun a ha => by simpa using h a ha)]
  simp

/-- NUL padding and a terminator after a NUL-free string do not change its characters. -/
theorem c_chars_padded (t : List Nat) (k : Nat) (h : ∀ c ∈ t, c ≠ 0) :
    c_chars (t ++ List.replicate k 0 ++ [0]) = t := by
  cases k with
  | zero => simpa using c_chars_append_nul t [] h
  | succ k =>
    rw [List.replicate_succ, List.append_assoc, List.cons_append]
    exact c_chars_append_nul t _ h

/-- Writing the one element that follows a prefix. -/
theorem set_last_of_append {α : Type} (p d : List α) (v : α) (hd : d.length = 1) :
    (p ++ d).set p.length v = p ++ [v] := by
  match d, hd with
  | [x], _ => simp

/-- What a text setter leaves in a field of capacity `n`: the first `n - 1` bytes of the
string, NUL padding, and the terminator. -/
theorem text_setter_stores {n : Nat} (hn : 0 < n) (dst : CArray Nat n) (s : List Nat)
    (hs : ∀ c ∈ s, c ≠ 0) :
    ((strncpy dst (s ++ [0]) (n - 1)).set (n - 1) 0).val =
      s.take (n - 1) ++ List.replicate (n - 1 - s.length) 0 ++ [0] := by
  have hd := dst.property
  have hc : c_chars (s ++ [0]) = s := c_chars_append_nul s [] hs
  have hplen : (s.take (n - 1) ++ List.replicate (n - 1 - s.length) 0).length = n - 1 := by
    simp only [List.length_append, List.length_take, List.length_replicate]; omega
  have hdlen : (dst.val.drop (n - 1)).length = 1 := by
    simp only [List.length_drop, hd]; omega
  simp only [CArray.set, strncpy, hc]
  rw [List.take_of_length_le (by simp only [List.length_append, hplen, hdlen]; omega)]
  have := set_last_of_append (s.take (n - 1) ++ List.replicate (n - 1 - s.length) 0)
    (dst.val.drop (n - 1)) 0 hdlen
  rw [hplen] at this
  exact this

/-! ### The callback stores and the trampolines -/

namespace unordered_map

end unordered_map

/-- No bound call records an invocation of a Python callable. -/
theorem Op.apply_py_calls {CN VN : Nat} (native : NativeClient) (op : Op)
    (w : VideoClientHandle × ModuleState CN VN) : (op.apply native w).2.py_calls = w.2.py_calls := by
  cases op with
  | release =>
    simp only [Op.apply, release_video_client]
    split <;> rfl
  | _ => rfl

/-- The bound calls of a callable record no invocation of a Python callable. -/
theorem run_bound_calls_py_calls {CN VN : Nat} (native : NativeClient)
    (calls : List (video_client × Op)) (s : ModuleState CN VN) :
    (run_bound_calls native calls s).py_calls = s.py_calls := by
  induction calls generalizing s with
  | nil => rfl
  | cons c calls ih =>
    simp only [run_bound_calls, List.foldl_cons]
    exact (ih _).trans (Op.apply_py_calls native c.2 _)

/-- The handler changes neither the invocations recorded nor the stores. -/
theorem catch_error_already_set_state {CN VN : Nat} (line : String → LogLine)
    (body : ModuleState CN VN × Option CppException) :
    (catch_error_already_set line body).1.py_calls = body.1.py_calls ∧
    (catch_error_already_set line body).1.g_py_data_callbacks = body.1.g_py_data_callbacks ∧
    (catch_error_already_set line body).1.g_py_disconnect_callbacks
      = body.1.g_py_disconnect_callbacks := by
  rcases body with ⟨s, _ | e⟩
  · exact ⟨rfl, rfl, rfl⟩
  · cases e <;> exact ⟨rfl, rfl, rfl⟩

/-- An exception of another type passes through the handler. -/
theorem catch_error_already_set_passes {CN VN : Nat} (line : String → LogLine)
    (s : ModuleState CN VN) (e : CppException) (h : e.is_error_already_set = false) :
    catch_error_already_set line (s, some e) = (s, some e) := by
  cases e <;> simp [CppException.is_error_already_set] at h <;> rfl

/-- With a registered callback and a Python side that can allocate, the frame trampoline
adds one invocation. -/
theorem cpp_data_callback_found {CN VN : Nat} (native : NativeClient) (rt : PyRuntime CN VN)
    (ctx : video_client) (callback : PyFunction) (data : List Nat) (size : Nat)
    (frame_info : MV_FRAME_INFO CN VN) (s : ModuleState CN VN)
    (hreg : s.g_py_data_callbacks.find ctx = some callback)
    (halloc : rt.array_t size = none) (hreq : rt.request size = none) :
    (cpp_data_callback native rt ctx data size frame_info s).1.py_calls =
      s.py_calls ++ [⟨callback, PyArgs.data ⟨ctx⟩ (data.take size) size frame_info⟩] := by
  simp only [cpp_data_callback, hreg, halloc, hreq]
  rw [(catch_error_already_set_state _ _).1, run_bound_calls_py_calls]

/-- When the array cannot be prepared the frame trampoline invokes nothing. -/
theorem cpp_data_callback_dropped {CN VN : Nat} (native : NativeClient) (rt : PyRuntime CN VN)
    (ctx : video_client) (data : List Nat) (size : Nat)
    (frame_info : MV_FRAME_INFO CN VN) (s : ModuleState CN VN)
    (hfail : rt.array_t size ≠ none ∨ rt.request size ≠ none) :
    (cpp_data_callback native rt ctx data size frame_info s).1.py_calls = s.py_calls := by
  cases hfind : s.g_py_data_callbacks.find ctx with
  | none => simp [cpp_data_callback, hfind]
  | some callback =>
    simp only [cpp_data_callback, hfind]
    rw [(catch_error_already_set_state _ _).1]
    cases halloc : rt.array_t size with
    | some e => rfl
    | none =>
      cases hreq : rt.request size with
      | some e => rfl
      | none => simp [halloc, hreq] at hfail

/-- C2, as the code has it. When a frame-data callback is registered for `ctx` and the native
buffer holds at least `n` bytes: if the construction of the `n`-byte array and its
`request()` do not throw, `cpp_data_callback` invokes that callback exactly once, with a
handle whose identity is `ctx`, a buffer of `n` bytes equal to the first `n` bytes of the
native buffer, the size `n` and the delivered metadata record, and invokes nothing else; if
either throws, the event is dropped and nothing is invoked. -/
theorem cpp_data_callback_invokes_registered {CN VN : Nat} (native : NativeClient)
    (rt : PyRuntime CN VN) (s : ModuleState CN VN) (ctx : video_client)
    (callback : PyFunction) (data : List Nat) (n : Nat) (frame_info : MV_FRAME_INFO CN VN)
    (hreg : s.g_py_data_callbacks.find ctx = some callback)
    (hbuf : n ≤ data.length) :
    (rt.array_t n = none → rt.request n = none →
      (cpp_data_callback native rt ctx data n frame_info s).1.py_calls =
          s.py_calls ++ [⟨callback, PyArgs.data ⟨ctx⟩ (data.take n) n frame_info⟩] ∧
      (data.take n).length = n ∧
      (∀ i, i < n → (data.take n)[i]? = data[i]?)) ∧
    (rt.array_t n ≠ none ∨ rt.request n ≠ none →
      (cpp_data_callback native rt ctx data n frame_info s).1.py_calls = s.py_calls) := by
  refine ⟨fun halloc hreq => ⟨cpp_data_callback_found native rt ctx callback data n frame_info s
    hreg halloc hreq, ?_, ?_⟩, cpp_data_callback_dropped native rt ctx data n frame_info s⟩
  · simp [List.length_take, hbuf]
  · intro i hi
    simp [List.getElem?_take, hi]

/-- C2 at a 1024-byte delivery: the callback registered by `start_video_client` for handle 5
receives a 1024-byte copy and the metadata record whose `nFrameLen` is 1024. -/
theorem cpp_data_callback_invokes_registered_witness :
    (cpp_data_callback obliging_native quiet_runtime 5 (List.replicate 1024 171 ++ [1, 2, 3])
        1024 (sample_frame_info 1024) sample_started).1.py_calls =
      [⟨9, PyArgs.data ⟨5⟩ (List.replicate 1024 171) 1024 (sample_frame_info 1024)⟩] ∧
    (List.replicate 1024 171).length = 1024 ∧ (sample_frame_info 1024).nFrameLen = 1024 := by
  have h := (cpp_data_callback_invokes_registered obliging_native quiet_runtime sample_started
    5 9 (List.replicate 1024 171 ++ [1, 2, 3]) 1024 (sample_frame_info 1024)
    (by decide)
    (by rw [List.length_append, List.length_replicate]; exact Nat.le_add_right _ _)).1 rfl rfl
  have ht : (List.replicate 1024 171 ++ [1, 2, 3]).take 1024 = List.replicate 1024 171 :=
    List.take_left' (List.length_replicate _ _)
  rw [ht] at h
  exact ⟨h.1, List.length_replicate _ _, rfl⟩

/-- C2 refuted as stated: callable 9 is registered for handle 5 and the native buffer holds
the 3 bytes delivered, but the Python side cannot allocate the array; the trampoline logs
the error and returns, and the callable has been invoked zero times, not once. -/
theorem cpp_data_callback_drops_when_allocation_fails :
    sample_started.g_py_data_callbacks.find 5 = some 9 ∧
    3 ≤ [1, 2, 3].length ∧
    (cpp_data_callback obliging_native exhausted_runtime 5 [1, 2, 3] 3 (sample_frame_info 3)
        sample_started).1.py_calls = [] ∧
    (cpp_data_callback obliging_native exhausted_runtime 5 [1, 2, 3] 3 (sample_frame_info 3)
        sample_started).1.py_calls ≠
      [⟨9, PyArgs.data ⟨5⟩ [1, 2, 3] 3 (sample_frame_info 3)⟩] ∧
    (cpp_data_callback obliging_native exhausted_runtime 5 [1, 2, 3] 3 (sample_frame_info 3)
        sample_started).1.log = [LogLine.data_callback_error "MemoryError"] := by
  refine ⟨by decide, by decide, rfl, ?_, rfl⟩
  intro h
  have h0 : (cpp_data_callback obliging_native exhausted_runtime 5 [1, 2, 3] 3
      (sample_frame_info 3) sample_started).1.py_calls = [] := rfl
  rw [h0] at h
  exact List.noConfusion h

/-- C3. `release_video_client` is idempotent: releasing twice leaves the handle and the module
as releasing once does. The release of a live handle makes one call of the native release
and sets the identity to null; the release of a null handle does nothing; so after any
number of further releases the state is that after the first, the native release having
been called at most once. `VideoClient.__del__` does the same as `release_video_client`. -/
theorem release_video_client_idempotent {CN VN : Nat} (handle : VideoClientHandle)
    (s : ModuleState CN VN) :
    release_video_client (release_video_client handle s).1 (release_video_client handle s).2
      = release_video_client handle s ∧
    (handle.ptr ≠ 0 →
      release_video_client handle s =
        (⟨0⟩, { s with native_calls :=
                  s.native_calls ++ [NativeCall.release_video_client handle.ptr] })) ∧
    (handle.ptr = 0 → release_video_client handle s = (handle, s)) ∧
    (∀ k : Nat, (fun w : VideoClientHandle × ModuleState CN VN =>
        release_video_client w.1 w.2)^[k + 1] (handle, s) = release_video_client handle s) ∧
    (∀ k : Nat, ∃ freed : List NativeCall, freed.length ≤ 1 ∧
      ((fun w : VideoClientHandle × ModuleState CN VN =>
        release_video_client w.1 w.2)^[k] (handle, s)).2.native_calls = s.native_calls ++ freed) ∧
    VideoClient.__del__ handle s = release_video_client handle s := by
  have hidem : ∀ (h : VideoClientHandle) (t : ModuleState CN VN),
      release_video_client (release_video_client h t).1 (release_video_client h t).2
        = release_video_client h t := by
    intro h t
    by_cases hp : h.ptr = 0
    · simp [release_video_client, hp]
    · simp [release_video_client, hp]
  have hiter : ∀ k : Nat, (fun w : VideoClientHandle × ModuleState CN VN =>
      release_video_client w.1 w.2)^[k + 1] (handle, s) = release_video_client handle s := by
    intro k
    induction k with
    | zero => rfl
    | succ k ih =>
      rw [Function.iterate_succ_apply', ih]
      exact hidem handle s
  refine ⟨hidem handle s, ?_, ?_, hiter, ?_, rfl⟩
  · intro hp
    simp [release_video_client, hp]
  · intro hp
    simp [release_video_client, hp]
  · intro k
    cases k with
    | zero => exact ⟨[], by simp, by simp⟩
    | succ k =>
      rw [hiter k]
      by_cases hp : handle.ptr = 0
      · exact ⟨[], by simp, by simp [release_video_client, hp]⟩
      · exact ⟨[NativeCall.release_video_client handle.ptr], by simp,
          by simp [release_video_client, hp]⟩

/-- C3 on the live handle 7: the first release frees it, the second changes nothing. -/
theorem release_video_client_idempotent_witness :
    (7 : Nat) ≠ 0 ∧
    release_video_client ⟨7⟩ (ModuleState.init 8 8) =
      (⟨0⟩, { ModuleState.init 8 8 with
                native_calls := [NativeCall.release_video_client 7] }) ∧
    release_video_client (release_video_client ⟨7⟩ (ModuleState.init 8 8)).1
        (release_video_client ⟨7⟩ (ModuleState.init 8 8)).2
      = release_video_client ⟨7⟩ (ModuleState.init 8 8) :=
  ⟨by decide,
   (release_video_client_idempotent ⟨7⟩ (ModuleState.init 8 8)).2.1 (by decide),
   (release_video_client_idempotent ⟨7⟩ (ModuleState.init 8 8)).1⟩

/-- C7. When no callback of the event's kind is registered for the identity, the trampoline
of that kind invokes no Python callable, returns normally and leaves both stores as they
were, so no entry is inserted for the identity. -/
theorem trampolines_drop_unregistered {CN VN : Nat} (native : NativeClient)
    (rt : PyRuntime CN VN) (s : ModuleState CN VN) (ctx : video_client) :
    (s.g_py_data_callbacks.find ctx = none →
      ∀ (data : List Nat) (size : Nat) (frame_info : MV_FRAME_INFO CN VN),
        (cpp_data_callback native rt ctx data size frame_info s).1.py_calls = s.py_calls ∧
        (cpp_data_callback native rt ctx data size frame_info s).2 = none ∧
        (cpp_data_callback native rt ctx data size frame_info s).1.g_py_data_callbacks
          = s.g_py_data_callbacks ∧
        (cpp_data_callback native rt ctx data size frame_info s).1.g_py_disconnect_callbacks
          = s.g_py_disconnect_callbacks ∧
        (cpp_data_callback native rt ctx data size frame_info s).1.g_py_data_callbacks.find ctx
          = none) ∧
    (s.g_py_disconnect_callbacks.find ctx = none →
      ∀ (code : Int) (msg : String),
        (cpp_disconnect_callback native rt ctx code msg s).1.py_calls = s.py_calls ∧
        (cpp_disconnect_callback native rt ctx code msg s).2 = none ∧
        (cpp_disconnect_callback native rt ctx code msg s).1.g_py_data_callbacks
          = s.g_py_data_callbacks ∧
        (cpp_disconnect_callback native rt ctx code msg s).1.g_py_disconnect_callbacks
          = s.g_py_disconnect_callbacks ∧
        (cpp_disconnect_callback native rt ctx code msg s).1.g_py_disconnect_callbacks.find ctx
          = none) := by
  constructor
  · intro h data size frame_info
    simp [cpp_data_callback, h]
  · intro h code msg
    simp [cpp_disconnect_callback, h]

/-- C7 on a module with a frame callback for identity 5 only: a frame event for 6 invokes
nothing and returns. -/
theorem trampolines_drop_unregistered_witness :
    (cpp_data_callback obliging_native quiet_runtime 6 [7, 8] 2 (sample_frame_info 2)
        sample_started).1.py_calls = [] ∧
    (cpp_data_callback obliging_native quiet_runtime 6 [7, 8] 2 (sample_frame_info 2)
        sample_started).2 = none :=
  ⟨((trampolines_drop_unregistered obliging_native quiet_runtime sample_started
      6).1 (by decide) [7, 8] 2 (sample_frame_info 2)).1,
   ((trampolines_drop_unregistered obliging_native quiet_runtime sample_started
      6).1 (by decide) [7, 8] 2 (sample_frame_info 2)).2.1⟩

/-- The assignment loop over the whole field yields the array given. -/
theorem assign_elements_eq {n : Nat} (field : CArray Nat n) (r : List Nat) (h : r.length = n) :
    assign_elements field r n = ⟨r, h⟩ :=
  Subtype.ext (assign_elements_full field r h)

/-- C8. Each fixed-size array setter (`_reserved1` of 3 words, `start_code` of 4 bytes,
`_max_size` of 16 words, `rvec` and `tvec` of 3 doubles, the extrinsic `_reserved` of 4
words), given an array whose length differs from that of the field, leaves with the
exception of its length check, the argument error `std::runtime_error`, and the record is
as before the call; given an array of the length of the field it returns normally, the
field holds the elements of the array and the other fields are as before. -/
theorem array_setters_validate_length {CN VN : Nat} (arr : List Nat)
    (p : PxMvCameraParameter) (m : MV_FRAME_INFO CN VN) (u : PxMvCameraIntrinsicUnion)
    (e : PxMvCameraExtrinsic) :
    ((arr.length ≠ 3 → (p.set_reserved1 arr).1 = p ∧
        ∃ what, (p.set_reserved1 arr).2 = some (CppException.runtime_error what)) ∧
      (∀ h : arr.length = 3, p.set_reserved1 arr = ({ p with _reserved1 := ⟨arr, h⟩ }, none))) ∧
    ((arr.length ≠ 4 → (m.set_start_code arr).1 = m ∧
        ∃ what, (m.set_start_code arr).2 = some (CppException.runtime_error what)) ∧
      (∀ h : arr.length = 4, m.set_start_code arr = ({ m with start_code := ⟨arr, h⟩ }, none))) ∧
    ((arr.length ≠ 16 → (u.set_max_size arr).1 = u ∧
        ∃ what, (u.set_max_size arr).2 = some (CppException.runtime_error what)) ∧
      (∀ h : arr.length = 16, u.set_max_size arr = ({ u with _max_size := ⟨arr, h⟩ }, none))) ∧
    ((arr.length ≠ 3 → (e.set_rvec arr).1 = e ∧
        ∃ what, (e.set_rvec arr).2 = some (CppException.runtime_error what)) ∧
      (∀ h : arr.length = 3, e.set_rvec arr = ({ e with rvec := ⟨arr, h⟩ }, none))) ∧
    ((arr.length ≠ 3 → (e.set_tvec arr).1 = e ∧
        ∃ what, (e.set_tvec arr).2 = some (CppException.runtime_error what)) ∧
      (∀ h : arr.length = 3, e.set_tvec arr = ({ e with tvec := ⟨arr, h⟩ }, none))) ∧
    ((arr.length ≠ 4 → (e.set_reserved arr).1 = e ∧
        ∃ what, (e.set_reserved arr).2 = some (CppException.runtime_error what)) ∧
      (∀ h : arr.length = 4, e.set_reserved arr = ({ e with _reserved := ⟨arr, h⟩ }, none))) := by
  refine ⟨⟨?_, ?_⟩, ⟨?_, ?_⟩, ⟨?_, ?_⟩, ⟨?_, ?_⟩, ⟨?_, ?_⟩, ⟨?_, ?_⟩⟩
  · intro h
    simp [PxMvCameraParameter.set_reserved1, h]
  · intro h
    simp [PxMvCameraParameter.set_reserved1, h, assign_elements_eq _ arr h]
  · intro h
    simp [MV_FRAME_INFO.set_start_code, h]
  · intro h
    simp [MV_FRAME_INFO.set_start_code, h, assign_elements_eq _ arr h]
  · intro h
    simp [PxMvCameraIntrinsicUnion.set_max_size, h]
  · intro h
    simp [PxMvCameraIntrinsicUnion.set_max_size, h, assign_elements_eq _ arr h]
  · intro h
    simp [PxMvCameraExtrinsic.set_rvec, h]
  · intro h
    simp [PxMvCameraExtrinsic.set_rvec, h, assign_elements_eq _ arr h]
  · intro h
    simp [PxMvCameraExtrinsic.set_tvec, h]
  · intro h
    simp [PxMvCameraExtrinsic.set_tvec, h, assign_elements_eq _ arr h]
  · intro h
    simp [PxMvCameraExtrinsic.set_reserved, h]
  · intro h
    simp [PxMvCameraExtrinsic.set_reserved, h, assign_elements_eq _ arr h]

/-- C8 on `_reserved1` and `start_code` with a three-element array: it replaces
`_reserved1`, and `start_code`, which has four elements, refuses it. -/
theorem array_setters_validate_length_witness :
    (sample_camera_parameter.set_reserved1 [11, 12, 13]).1._reserved1.val = [11, 12, 13] ∧
    ((sample_frame_info 0).set_start_code [11, 12, 13]).1 = sample_frame_info 0 :=
  ⟨congrArg (fun r => r.1._reserved1.val)
      ((@array_setters_validate_length 8 8 [11, 12, 13] sample_camera_parameter
        (sample_frame_info 0) sample_camera_parameter.intrinsic
        sample_camera_parameter.extrinsic).1.2 rfl),
   ((@array_setters_validate_length 8 8 [11, 12, 13] sample_camera_parameter
        (sample_frame_info 0) sample_camera_parameter.intrinsic
        sample_camera_parameter.extrinsic).2.1.1 (by decide)).1⟩

/-- The content and the reading of a text field of capacity `n` after its setter. -/
theorem text_field_after_set {n : Nat} (hn : 0 < n) (dst : CArray Nat n) (s : List Nat)
    (hs : ∀ c ∈ s, c ≠ 0) :
    ((strncpy dst (s ++ [0]) (n - 1)).set (n - 1) 0).val[n - 1]? = some 0 ∧
    c_chars ((strncpy dst (s ++ [0]) (n - 1)).set (n - 1) 0).val = s.take (min s.length (n - 1)) ∧
    (n - 1 < s.length →
      ((strncpy dst (s ++ [0]) (n - 1)).set (n - 1) 0).val = s.take (n - 1) ++ [0] ∧
      (s.take (n - 1)).length = n - 1) ∧
    (s.length ≤ n - 1 → c_chars ((strncpy dst (s ++ [0]) (n - 1)).set (n - 1) 0).val = s) := by
  have hval := text_setter_stores hn dst s hs
  have htake : ∀ c ∈ s.take (n - 1), c ≠ 0 := fun c hc => hs c (List.mem_of_mem_take hc)
  have hchars : c_chars ((strncpy dst (s ++ [0]) (n - 1)).set (n - 1) 0).val = s.take (n - 1) := by
    rw [hval]; exact c_chars_padded _ _ htake
  have hplen : (s.take (n - 1) ++ List.replicate (n - 1 - s.length) 0).length = n - 1 := by
    simp only [List.length_append, List.length_take, List.length_replicate]; omega
  refine ⟨?_, ?_, ?_, ?_⟩
  · rw [hval, List.getElem?_append_right (by rw [hplen]), hplen]
    simp
  · rw [hchars]
    by_cases h : s.length ≤ n - 1
    · rw [Nat.min_eq_left h, List.take_of_length_le h, List.take_of_length_le (le_refl _)]
    · rw [Nat.min_eq_right (by omega)]
  · intro h
    refine ⟨?_, ?_⟩
    · rw [hval]
      have : n - 1 - s.length = 0 := by omega
      simp [this]
    · simp only [List.length_take]; omega
  · intro h
    rw [hchars, List.take_of_length_le h]

/-- C9. For the text field `channelName` of capacity `CN` (and `vendor` of capacity `VN`) and
a string `s` without NUL byte: after the setter the last byte of the field is NUL and the
getter returns the first `min (len s) (CN - 1)` bytes of `s`; a longer `s` is stored as its
first `CN - 1` bytes followed by the terminator, and an `s` of at most `CN - 1` bytes is
read back unchanged. -/
theorem text_setters_truncate {CN VN : Nat} (self : PxMvDeviceInfo CN VN) (s : List Nat)
    (hs : ∀ c ∈ s, c ≠ 0) :
    (0 < CN →
      (self.set_channelName s).channelName.val[CN - 1]? = some 0 ∧
      (self.set_channelName s).get_channelName = s.take (min s.length (CN - 1)) ∧
      (CN - 1 < s.length →
        (self.set_channelName s).channelName.val = s.take (CN - 1) ++ [0] ∧
        (s.take (CN - 1)).length = CN - 1) ∧
      (s.length ≤ CN - 1 → (self.set_channelName s).get_channelName = s)) ∧
    (0 < VN →
      (self.set_vendor s).vendor.val[VN - 1]? = some 0 ∧
      (self.set_vendor s).get_vendor = s.take (min s.length (VN - 1)) ∧
      (VN - 1 < s.length →
        (self.set_vendor s).vendor.val = s.take (VN - 1) ++ [0] ∧
        (s.take (VN - 1)).length = VN - 1) ∧
      (s.length ≤ VN - 1 → (self.set_vendor s).get_vendor = s)) :=
  ⟨fun h => text_field_after_set h self.channelName s hs,
   fun h => text_field_after_set h self.vendor s hs⟩

/-- C9 at capacity 8: a ten-byte name is read back as its first seven bytes, a seven-byte
name unchanged. -/
theorem text_setters_truncate_witness :
    (sample_device_info.set_channelName [1, 2, 3, 4, 5, 6, 7, 8, 9, 10]).get_channelName
      = [1, 2, 3, 4, 5, 6, 7] ∧
    (sample_device_info.set_channelName [1, 2, 3, 4, 5, 6, 7]).get_channelName
      = [1, 2, 3, 4, 5, 6, 7] :=
  ⟨((text_setters_truncate sample_device_info [1, 2, 3, 4, 5, 6, 7, 8, 9, 10]
      (by decide)).1 (by decide)).2.1,
   ((text_setters_truncate sample_device_info [1, 2, 3, 4, 5, 6, 7]
      (by decide)).1 (by decide)).2.2.2 (by decide)⟩

/-! ### Released handles -/

/-- No bound call makes a null identity non-null. -/
theorem Op.apply_keeps_null {CN VN : Nat} (native : NativeClient) (op : Op)
    (w : VideoClientHandle × ModuleState CN VN) (h : w.1.ptr = 0) :
    (op.apply native w).1.ptr = 0 := by
  cases op <;> simp [Op.apply, release_video_client, h]

/-- No sequence of bound calls makes a null identity non-null. -/
theorem Op.run_keeps_null {CN VN : Nat} (native : NativeClient) (ops : List Op)
    (w : VideoClientHandle × ModuleState CN VN) (h : w.1.ptr = 0) :
    (Op.run native ops w).1.ptr = 0 := by
  induction ops generalizing w with
  | nil => exact h
  | cons op ops ih => exact ih _ (Op.apply_keeps_null native op w h)

/-- After a release the identity is null. -/
theorem release_video_client_null {CN VN : Nat} (handle : VideoClientHandle)
    (s : ModuleState CN VN) : (release_video_client handle s).1.ptr = 0 := by
  by_cases h : handle.ptr = 0 <;> simp [release_video_client, h]

/-- C10, as the code has it. After `release_video_client` the identity of the handle is null
and it is null after every further sequence of bound calls. The bound functions other than
release do not refuse such a handle: each makes its call into the native client with the
null identity and returns the status the native client answers, and
`connect_video_client` and `start_video_client` store their callback under the null
identity before that call. -/
theorem released_handle_stays_null {CN VN : Nat} (native : NativeClient)
    (handle : VideoClientHandle) (s : ModuleState CN VN) (ops : List Op) :
    (release_video_client handle s).1.ptr = 0 ∧
    (Op.run native ops (release_video_client handle s)).1.ptr = 0 ∧
    (∀ (h0 : VideoClientHandle) (t : ModuleState CN VN),
      (h0, t) = Op.run native ops (release_video_client handle s) →
      (∀ (url : String) (timeout_sec : Nat) (callback : PyFunction),
        connect_video_client native h0 url timeout_sec callback t =
          (native (NativeCall.connect_video_client 0 url timeout_sec),
            { t with
              g_py_disconnect_callbacks := t.g_py_disconnect_callbacks.assign 0 callback
              native_calls :=
                t.native_calls ++ [NativeCall.connect_video_client 0 url timeout_sec] })) ∧
      (∀ (vp_ctx : videoproc_context) (callback : PyFunction),
        start_video_client native h0 vp_ctx callback t =
          (native (NativeCall.start_video_client 0 vp_ctx),
            { t with
              g_py_data_callbacks := t.g_py_data_callbacks.assign 0 callback
              native_calls := t.native_calls ++ [NativeCall.start_video_client 0 vp_ctx] })) ∧
      disconnect_video_client native h0 t =
        (native (NativeCall.disconnect_video_client 0),
          { t with native_calls := t.native_calls ++ [NativeCall.disconnect_video_client 0] }) ∧
      stop_video_client native h0 t =
        (native (NativeCall.stop_video_client 0),
          { t with native_calls := t.native_calls ++ [NativeCall.stop_video_client 0] }) ∧
      (∀ size : Nat,
        set_max_queue_size native h0 size t =
          (native (NativeCall.set_max_queue_size 0 size),
            { t with native_calls :=
                t.native_calls ++ [NativeCall.set_max_queue_size 0 size] }))) := by
  have hnull := Op.run_keeps_null native ops _ (release_video_client_null handle s)
  refine ⟨release_video_client_null handle s, hnull, ?_⟩
  intro h0 t hw
  have hp : h0.ptr = 0 := by
    have := congrArg (fun w => w.1.ptr) hw
    simp only at this
    rw [this]; exact hnull
  refine ⟨?_, ?_, ?_, ?_, ?_⟩
  · intro url timeout_sec callback
    simp [connect_video_client, hp]
  · intro vp_ctx callback
    simp [start_video_client, hp]
  · simp [disconnect_video_client, hp]
  · simp [stop_video_client, hp]
  · intro size
    simp [set_max_queue_size, hp]

/-- C10 on handle 7 released and then stopped: a later connect reaches the native client
with the null identity. -/
theorem released_handle_stays_null_witness :
    (connect_video_client (fun _ => api_err_t.INVALID_CLIENT_CONTEXT) ⟨0⟩ "rtsp://camera" 0 42
        (Op.run (fun _ => api_err_t.INVALID_CLIENT_CONTEXT) [Op.stop]
          (release_video_client ⟨7⟩ (ModuleState.init 8 8))).2).2.native_calls =
      [NativeCall.release_video_client 7, NativeCall.stop_video_client 0,
        NativeCall.connect_video_client 0 "rtsp://camera" 0] :=
  congrArg (fun r => r.2.native_calls)
    (((released_handle_stays_null (fun _ => api_err_t.INVALID_CLIENT_CONTEXT) ⟨7⟩
      (ModuleState.init 8 8) [Op.stop]).2.2 ⟨0⟩ _ rfl).1 "rtsp://camera" 0 42)

/-- C10 refuted as stated: handle 7 is released and `connect_video_client` is then called on
it with callable 42. The call is not refused: it reaches the native client, so the calls
made into it are no longer those made before, and the disconnect store, which had no entry
for the null identity, now maps it to 42. -/
theorem released_handle_connect_not_rejected :
    (release_video_client ⟨7⟩ (ModuleState.init 8 8)).1.ptr = 0 ∧
    (connect_video_client (fun _ => api_err_t.INVALID_CLIENT_CONTEXT)
        (release_video_client ⟨7⟩ (ModuleState.init 8 8)).1 "rtsp://camera" 0 42
        (release_video_client ⟨7⟩ (ModuleState.init 8 8)).2).2.native_calls
      = [NativeCall.release_video_client 7,
          NativeCall.connect_video_client 0 "rtsp://camera" 0] ∧
    (connect_video_client (fun _ => api_err_t.INVALID_CLIENT_CONTEXT)
        (release_video_client ⟨7⟩ (ModuleState.init 8 8)).1 "rtsp://camera" 0 42
        (release_video_client ⟨7⟩ (ModuleState.init 8 8)).2).2.native_calls
      ≠ (release_video_client ⟨7⟩ (ModuleState.init 8 8)).2.native_calls ∧
    (release_video_client ⟨7⟩ (ModuleState.init 8 8)).2.g_py_disconnect_callbacks.find 0
      = none ∧
    (connect_video_client (fun _ => api_err_t.INVALID_CLIENT_CONTEXT)
        (release_video_client ⟨7⟩ (ModuleState.init 8 8)).1 "rtsp://camera" 0 42
        (release_video_client ⟨7⟩ (ModuleState.init 8 8)).2).2.g_py_disconnect_callbacks.find 0
      = some 42 := by
  refine ⟨rfl, rfl, by decide, rfl, rfl⟩

end VideoClientAPI
